import Mathlib

/-!
# Verification of the YouTube channel analysis pipeline (src/Streamlit.py)

Shallow embedding of the core of the single-file Streamlit application:

* the data collectors `get_channel_videos` (paginated video-id collection with
  a cap, followed by detail fetching in batches of 50) and
  `get_recent_comments` (per-video comment collection filtered by a recency
  window applied to the *video* publish date);
* the pain-point filter (the `question_patterns` regex of line 506, an
  alternation of literal markers, applied with `str.contains`);
* the Google-Docs export helper `create_blank_doc_in_folder`;
* the funnel-analysis prompt builder `analyze_marketing_funnel`;
* the pipeline session state machine: `st.session_state` as a record, with
  one transition function per button handler, mirroring the gating
  conditions of each tab (`current_step` checks and artifact-presence
  checks) exactly as written in the source.

External effects (YouTube Data API, OpenAI, Google Drive) are modelled as
explicit inputs: page lists, fetch functions, LLM outputs and drive-call
results are parameters of the corresponding definitions, so every
definition is executable on concrete data.
-/

/-! ## Data model -/

/-- A row of the videos DataFrame built by `get_channel_videos`
(Streamlit.py:113): id, title, publish timestamp, view count.
Timestamps are modelled as epoch seconds (`Int`). -/
structure Video where
  video_id : String
  title : String
  publishedAt : Int
  viewCount : Nat
deriving Repr, DecidableEq

/-- A top-level comment as returned by the commentThreads API
(Streamlit.py:129-131): author display name, publish time, like count, text. -/
structure RawComment where
  author : String
  publishedAt : Int
  likeCount : Nat
  text : String
deriving Repr, DecidableEq

/-- A row of the comments DataFrame built by `get_recent_comments`
(Streamlit.py:131). -/
structure CommentRow where
  video_id : String
  author : String
  published_at : Int
  like_count : Nat
  text : String
deriving Repr, DecidableEq

/-- A pandas DataFrame of comment rows: its column list matters because
`pd.DataFrame([])` (built from an empty record list) has *no* columns, so
column access raises `KeyError`. -/
structure PDFrame where
  cols : List String
  rows : List CommentRow
deriving Repr, DecidableEq

/-- `pd.DataFrame(all_comments)` (Streamlit.py:137): the columns are those of
the records when the record list is nonempty, and absent otherwise. -/
def toDF (rows : List CommentRow) : PDFrame :=
  { cols := if rows.isEmpty then []
            else ["video_id", "author", "published_at", "like_count", "text"],
    rows := rows }

/-! ## PainPointFilter (Streamlit.py:506-507)

`question_patterns = r"\?|？|怎麼|如何|為什麼|嗎|能不能|可不可以|怎么|为什么|吗"`
applied with `Series.str.contains(..., regex=True)`: a regex *search*, i.e.
the text matches iff it contains one of the eleven literal alternatives as a
substring (`\?` matches a literal question mark). -/

/-- Substring matching at the head: `leads_with n h` is true iff `n` is a
prefix of `h`. -/
def leads_with : List Char → List Char → Bool
  | [], _ => true
  | _ :: _, [] => false
  | a :: as, b :: bs => decide (a = b) && leads_with as bs

/-- `contains_sub n h` is true iff `n` occurs as a contiguous substring of
`h` (regex search for a literal pattern). -/
def contains_sub (needle : List Char) : List Char → Bool
  | [] => needle.isEmpty
  | b :: bs => leads_with needle (b :: bs) || contains_sub needle bs

/-- The eleven alternatives of the `question_patterns` regex of
Streamlit.py:506, in source order. -/
def question_patterns : List String :=
  ["?", "？", "怎麼", "如何", "為什麼", "嗎", "能不能", "可不可以", "怎么", "为什么", "吗"]

/-- The comment filter of Streamlit.py:507:
`comments_df['text'].str.contains(question_patterns, na=False, regex=True)`.
A text is question-like iff the regex search succeeds, i.e. iff some
alternative occurs in the text. Total and deterministic by construction. -/
def isQuestionLike (text : String) : Bool :=
  question_patterns.any (fun m => contains_sub m.data text.data)

/-! ## ChannelCatalogBuilder: `get_channel_videos` (Streamlit.py:92-114)

The playlistItems pagination is modelled by the list of pages the API would
serve (`pages`), consumed in order; a `nextPageToken` exists exactly when
further pages remain.  The `videos().list` detail call is modelled by a
total function `detail` from a video id to its detail row (each requested id
yields one row).  The id type is left abstract. -/

/-- The `while True` id-collection loop of Streamlit.py:97-105: append the
current page's ids, then break if there is no next page token or the number
of collected ids has reached `max_videos`. -/
def collect_video_ids_go (max_videos : Nat) : List (List α) → List α → List α
  | [], acc => acc
  | p :: rest, acc =>
    match rest with
    | [] => acc ++ p
    | q :: qs =>
      if max_videos ≤ (acc ++ p).length then acc ++ p
      else collect_video_ids_go max_videos (q :: qs) (acc ++ p)

/-- The detail-fetch loop of Streamlit.py:107-113:
`for i in range(0, min(len(video_ids), max_videos), 50)` requests details
for the slice `video_ids[i:i+50]` and appends the resulting rows.
`range(0, m, 50)` is rendered as the multiples `50*k` for `k < ⌈m/50⌉`. -/
def fetch_video_details (video_ids : List α) (max_videos : Nat)
    (detail : α → Video) : List Video :=
  (((List.range ((min video_ids.length max_videos + 49) / 50)).map
      (fun k => (video_ids.drop (50 * k)).take 50)).flatten).map detail

/-- `get_channel_videos` (Streamlit.py:92-114): collect video ids with the
cap, then batch-fetch their details. -/
def get_channel_videos (pages : List (List α)) (detail : α → Video)
    (max_videos : Nat := 1000) : List Video :=
  fetch_video_details (collect_video_ids_go max_videos pages []) max_videos detail

/-! ## CommentCollector: `get_recent_comments` (Streamlit.py:116-137)

The per-video comment pagination (fully drained for each video, with the
whole video skipped on an exception) is modelled by
`fetch : videoId → Option (List RawComment)`; `none` is the exception case.
`channel_name` is optional, matching the Python truthiness test
`if channel_name and comment['authorDisplayName'] == channel_name`. -/

/-- The author-exclusion test of Streamlit.py:130. -/
def excluded_author : Option String → RawComment → Bool
  | none, _ => false
  | some n, c => if n = "" then false else decide (c.author = n)

/-- The row-building inner loop of Streamlit.py:128-131 for one video. -/
def video_comment_rows (vid : String) (channel_name : Option String)
    (cs : List RawComment) : List CommentRow :=
  cs.filterMap (fun c =>
    if excluded_author channel_name c then none
    else some { video_id := vid, author := c.author, published_at := c.publishedAt,
                like_count := c.likeCount, text := c.text })

/-- The per-video `try`/`except` of Streamlit.py:122-135: a failed fetch
(`none`) skips the video; a successful one yields its comment rows. -/
def comments_for_video (vid : String) (channel_name : Option String) :
    Option (List RawComment) → List CommentRow
  | none => []
  | some cs => video_comment_rows vid channel_name cs

/-- `get_recent_comments` (Streamlit.py:116-137): filter the catalog to the
videos published at or after `cutoff_date = now - days` (the window applies
to the *video* publish date), then collect each qualifying video's
comments, skipping a video entirely when its fetch fails.
A day is 86400 seconds. -/
def get_recent_comments (videos_df : List Video) (now : Int) (days : Nat)
    (fetch : String → Option (List RawComment)) (channel_name : Option String) :
    List CommentRow :=
  (videos_df.filter (fun v => decide (now - (days : Int) * 86400 ≤ v.publishedAt))).flatMap
    (fun v => comments_for_video v.video_id channel_name (fetch v.video_id))

/-! ## The pain-point stage body (Streamlit.py:504-510)

The `openai_comment_analysis` handler filters `comments_df` by
`comments_df['text'].str.contains(question_patterns, ...)`.  When the
collected comment set is empty, `pd.DataFrame([])` has no `'text'` column
and the subscript raises `KeyError` — modelled as `Except.error`.  The LLM
call of the nonempty branch is modelled by its output `llm_out`. -/

/-- The body of the `openai_comment_analysis` button handler
(Streamlit.py:505-509), as a fallible computation of the Step 3 artifact. -/
def commentAnalysisStep (df : PDFrame) (llm_out : String) : Except String String :=
  if "text" ∈ df.cols then
    let questions := df.rows.filter (fun r => isQuestionLike r.text)
    if questions.isEmpty then Except.ok "找不到包含問題的留言，無法進行痛點分析。"
    else Except.ok llm_out
  else Except.error "KeyError: 'text'"

/-! ## Funnel stage selection and `analyze_marketing_funnel` (Streamlit.py:294-311, 683-697) -/

/-- The fixed 7-value funnel stage enumeration offered by the Step 7
selectboxes (Streamlit.py:683). -/
def funnel_stages : List String :=
  ["階段0：陌生、未知", "階段1：知悉、接觸", "階段2：感興趣、比較",
   "階段3：體驗、試用", "階段4：首購、使用", "階段5：再購、續用", "階段6：分享、推薦"]

/-- Python `str.split(sep)` for a one-character separator, over the
character list: splitting an input with no separator yields one part. -/
def split_on_char (sep : Char) : List Char → List (List Char)
  | [] => [[]]
  | c :: cs =>
    if c = sep then [] :: split_on_char sep cs
    else
      match split_on_char sep cs with
      | [] => [[c]]
      | h :: t => (c :: h) :: t

/-- `stage.split('：')[1]` (Streamlit.py:295-296): the text after the
full-width colon. `none` models the `IndexError` when the separator is
absent. -/
def stage_desc (s : String) : Option String :=
  ((split_on_char '：' s.data).get? 1).map String.mk

/-- `stage[2]` (Streamlit.py:310-311): the character at string index 2, the
stage digit. `none` models the `IndexError` on a too-short string. -/
def stage_digit (s : String) : Option Char := s.data.get? 2

/-- The four pieces `analyze_marketing_funnel` extracts from the two
selections: start description, start digit, end description, end digit. -/
def funnelParts (start_stage end_stage : String) :
    Option (String × Char × String × Char) :=
  match stage_desc start_stage, stage_digit start_stage,
        stage_desc end_stage, stage_digit end_stage with
  | some sd, some sc, some ed, some ec => some (sd, sc, ed, ec)
  | _, _, _, _ => none

/-- The interpolation-bearing lines of the prompt f-string of
Streamlit.py:297-348 (the static instructional prose between the
interpolations is abbreviated; it contains no further interpolation). -/
def funnel_prompt (kol_name product_description audience_insight bvp_result : String)
    (p : String × Char × String × Char) : String :=
  "你是一位世界級的行銷漏斗策略專家 (Marketing Funnel Strategist)。\n### 任務目標\n" ++
  "我們現在的目標客群是 **" ++ kol_name ++ "** 的粉絲。\n" ++
  "他們對於這項產品，他們目前正處於 **「" ++ p.1 ++ " (階段" ++ String.mk [p.2.1] ++ ")」**。\n" ++
  "我們的目標是引導他們從 **階段" ++ String.mk [p.2.1] ++ "** 移動到 **「" ++
  p.2.2.1 ++ " (階段" ++ String.mk [p.2.2.2] ++ ")」**。\n" ++
  "### 【目標客群深度 Insight】\n" ++ audience_insight ++
  "\n### 【產品描述】\n" ++ product_description ++
  "\n### 【品牌價值主張】\n" ++ bvp_result

/-- `analyze_marketing_funnel` (Streamlit.py:294-350): extract the stage
descriptions and digits from the two selections (no ordering check of any
kind is performed between them), build the prompt, and return the LLM
output. `none` models the `IndexError` cases; the LLM call is modelled by
`llm`. -/
def analyze_marketing_funnel (kol_name product_description audience_insight
    bvp_result start_stage end_stage : String) (llm : String → String) :
    Option String :=
  (funnelParts start_stage end_stage).map
    (fun p => llm (funnel_prompt kol_name product_description audience_insight bvp_result p))

/-! ## ReportExporter: `create_blank_doc_in_folder` (Streamlit.py:352-374)

The Drive collaborator is modelled by the results of its two calls:
`files().create` (returning the optional id and url of the new file, or an
HttpError) and `permissions().create` (keyed by file id and email).  The
function, as in the source, wraps *both* calls in one `try`, so a sharing
failure after a successful creation falls into the same `except` branch as
a creation failure. -/

/-- The created document itself: `files().create` with
`mimeType='application/vnd.google-apps.document'` and no content call
produces a document with the given name and an empty body (the source
contains no Docs `insertText`/`batchUpdate` call at all). -/
structure GDoc where
  title : String
  text : String
deriving Repr, DecidableEq

/-- The result of `files().create` (Streamlit.py:361): the new file's name
is the requested title and its body text is empty. -/
def createdDoc (title : String) : GDoc := { title := title, text := "" }

/-- The report title built by the `create_gdoc` handler
(Streamlit.py:447). -/
def doc_title_for (channel_title date : String) : String :=
  channel_title ++ "_AI策略分析報告_" ++ date

/-- Outcomes of the two Drive calls issued by `create_blank_doc_in_folder`. -/
structure DriveService where
  createResult : Except String (Option String × Option String)
  permissionResult : String → String → Except String Unit

/-- `create_blank_doc_in_folder` (Streamlit.py:352-374): returns
`(doc_url, error)`. Any exception raised by either Drive call — including
the `permissions().create` call issued *after* the document was created —
is caught by the function-wide `except` and turned into
`(None, "建立 Google Docs 失敗: ...")`. -/
def create_blank_doc_in_folder (svc : DriveService)
    (title folder_id user_email : String) : Option String × Option String :=
  match svc.createResult with
  | Except.error e => (none, some ("建立 Google Docs 失敗: " ++ e))
  | Except.ok (doc_id?, doc_url?) =>
    match doc_id? with
    | none => (none, some "未能取得 Document ID。")
    | some doc_id =>
      if user_email = "" then (doc_url?, none)
      else
        match svc.permissionResult doc_id user_email with
        | Except.error e => (none, some ("建立 Google Docs 失敗: " ++ e))
        | Except.ok _ => (doc_url?, none)

/-- The six per-stage section titles under which the app presents the LLM
artifacts (the `display_and_copy_block` calls of Streamlit.py:476, 512,
532, 579, 640-644, 700), in pipeline order. -/
def section_labels : List String :=
  ["AI 全頻道分析結果", "AI 粉絲痛點分析結果", "AI 目標客群 Insight 報告",
   "產品內容變現建議", "AI 品牌價值主張結果", "AI 行銷 Funnel 策略報告"]

/-- Python whitespace for `str.strip()`. -/
def is_py_space (c : Char) : Bool :=
  c = ' ' || c = '\t' || c = '\n' || c = '\r' || c = '\x0b' || c = '\x0c'

/-- Python `str.strip()`: remove leading and trailing whitespace.  Used for
the blank-input checks of the Step 5 and Step 6 handlers
(Streamlit.py:573, 629). -/
def py_strip (s : String) : String :=
  String.mk (((s.data.dropWhile is_py_space).reverse.dropWhile is_py_space).reverse)

/-! ## PipelineStateMachine: `st.session_state` and the button handlers

`st.session_state` is a string-keyed dictionary; each key the app uses
becomes an `Option` field (`none` = key absent).  `current_step` is
initialised to 1 when absent (Streamlit.py:382-383).  Each button handler
becomes a transition function `Session → ... → Option Session`:

* `none` means the attempt is rejected — the tab's gate
  (`current_step < k`) showed the info message instead of the stage
  content, or the button is not rendered at all;
* `some s` with `s` unchanged means the handler ran but only warned (or an
  exception aborted the script run, leaving the session untouched).

External call results (resolved channel info, fetched data, LLM outputs)
are parameters of the transitions. -/

/-- The per-session state of the app: every `st.session_state` key the
source reads or writes. -/
structure Session where
  channel_id : Option String := none
  uploads_id : Option String := none
  channel_title : Option String := none
  current_step : Nat := 1
  gdoc_url : Option String := none
  videos_df : Option (List Video) := none
  comments_df : Option PDFrame := none
  channel_analysis_result : Option String := none
  comment_analysis_result : Option String := none
  insight_analysis_result : Option String := none
  commercialization_result : Option String := none
  bvp_result : Option String := none
  funnel_analysis_result : Option String := none
  final_product_description : Option String := none
deriving Repr, DecidableEq

/-- The session on first load: no keys set, `current_step = 1`
(Streamlit.py:382-383). -/
def initSession : Session := {}

/-- The `lock_channel` handler (Streamlit.py:415-428).  On a nonempty input
and a successful resolution (Python truthiness: `uploads_id` must be a
nonempty string), *every* session key is deleted and only the new channel's
identity plus `current_step = 2` are installed; otherwise the session is
untouched. -/
def lock_channel_step (s : Session) (input : String)
    (resolved : Option (String × String)) : Session :=
  if input = "" then s
  else
    match resolved with
    | none => s
    | some (uploads_id, channel_title) =>
      if uploads_id = "" then s
      else { channel_id := some input, uploads_id := some uploads_id,
             channel_title := some channel_title, current_step := 2 }

/-- The `create_gdoc` handler (Streamlit.py:443-454): available inside the
Step 2 tab (`current_step ≥ 2`) only while no report document exists. -/
def create_gdoc_step (s : Session) (user_email : String)
    (result : Option String × Option String) : Option Session :=
  if 2 ≤ s.current_step ∧ s.gdoc_url = none then
    if user_email = "" then some s
    else
      match result with
      | (_, some _) => some s
      | (doc_url?, none) => some { s with gdoc_url := doc_url? }
  else none

/-- The `fetch_videos` handler (Streamlit.py:455-459): rendered only while
`videos_df` is absent. -/
def fetch_videos_step (s : Session) (vids : List Video) : Option Session :=
  if 2 ≤ s.current_step ∧ s.videos_df = none then
    some { s with videos_df := some vids }
  else none

/-- The `openai_channel_analysis` handler (Streamlit.py:471-473): rendered
when the Step 2 tab is unlocked and `videos_df` exists; it *only* stores the
new Step 2 artifact. -/
def run_channel_analysis_step (s : Session) (llm_out : String) : Option Session :=
  if 2 ≤ s.current_step ∧ s.videos_df ≠ none then
    some { s with channel_analysis_result := some llm_out }
  else none

/-- The `goto_step3` button (Streamlit.py:477-479). -/
def goto_step3_step (s : Session) : Option Session :=
  if 2 ≤ s.current_step ∧ s.videos_df ≠ none ∧ s.channel_analysis_result ≠ none then
    some { s with current_step := 3 }
  else none

/-- The `fetch_comments` handler (Streamlit.py:489-493): inside the Step 3
tab; warns (no state change) when `videos_df` is absent, otherwise stores
`get_recent_comments(videos_df, days, channel_title)` as a DataFrame. -/
def fetch_comments_step (s : Session) (now : Int) (days : Nat)
    (fetch : String → Option (List RawComment)) : Option Session :=
  if 3 ≤ s.current_step then
    match s.videos_df with
    | none => some s
    | some vids =>
      let df := toDF (get_recent_comments vids now days fetch s.channel_title)
      some { s with comments_df := some df }
  else none

/-- The `openai_comment_analysis` handler (Streamlit.py:504-510): rendered
when `comments_df` exists; its body is `commentAnalysisStep` — the
`KeyError` case aborts the run with the session unchanged. -/
def run_comment_analysis_step (s : Session) (llm_out : String) : Option Session :=
  if 3 ≤ s.current_step then
    match s.comments_df with
    | none => none
    | some df =>
      match commentAnalysisStep df llm_out with
      | Except.ok artifact => some { s with comment_analysis_result := some artifact }
      | Except.error _ => some s
  else none

/-- The `goto_step4` button (Streamlit.py:513-515). -/
def goto_step4_step (s : Session) : Option Session :=
  if 3 ≤ s.current_step ∧ s.comments_df ≠ none ∧ s.comment_analysis_result ≠ none then
    some { s with current_step := 4 }
  else none

/-- The `openai_insight_analysis` handler (Streamlit.py:528-530): the Step 4
tab requires both the Step 2 and Step 3 artifacts (Streamlit.py:523-524);
the handler *only* stores the new Step 4 artifact. -/
def run_insight_step (s : Session) (llm_out : String) : Option Session :=
  if 4 ≤ s.current_step ∧ s.channel_analysis_result ≠ none
      ∧ s.comment_analysis_result ≠ none then
    some { s with insight_analysis_result := some llm_out }
  else none

/-- The `goto_step5` button (Streamlit.py:540-542). -/
def goto_step5_step (s : Session) : Option Session :=
  if 4 ≤ s.current_step ∧ s.channel_analysis_result ≠ none
      ∧ s.comment_analysis_result ≠ none ∧ s.insight_analysis_result ≠ none then
    some { s with current_step := 5 }
  else none

/-- The `skip_step5` button (Streamlit.py:545-550): unlocks Step 6 and
deletes any stale `commercialization_result`. -/
def skip_step5_step (s : Session) : Option Session :=
  if 4 ≤ s.current_step ∧ s.channel_analysis_result ≠ none
      ∧ s.comment_analysis_result ≠ none ∧ s.insight_analysis_result ≠ none then
    some { s with current_step := 6, commercialization_result := none }
  else none

/-- The `openai_commercialization_analysis` handler (Streamlit.py:572-577):
the Step 5 tab requires the Step 4 artifact (Streamlit.py:559); an
all-whitespace insight text only warns. -/
def run_commercialization_step (s : Session) (edited_insights llm_out : String) :
    Option Session :=
  if 5 ≤ s.current_step ∧ s.insight_analysis_result ≠ none then
    if py_strip edited_insights = "" then some s
    else some { s with commercialization_result := some llm_out }
  else none

/-- The `goto_step6_from5` button (Streamlit.py:581-583). -/
def goto_step6_step (s : Session) : Option Session :=
  if 5 ≤ s.current_step ∧ s.insight_analysis_result ≠ none
      ∧ s.commercialization_result ≠ none then
    some { s with current_step := 6 }
  else none

/-- The Step 6 tab body plus the `openai_bvp_analysis` handler
(Streamlit.py:586-638): rendering the tab stores the product-description
text area into `final_product_description` (Streamlit.py:608) before the
button runs; blank product description or insights only warn. -/
def run_bvp_step (s : Session) (product_description edited_insights llm_out : String) :
    Option Session :=
  if 6 ≤ s.current_step ∧ s.insight_analysis_result ≠ none then
    if py_strip edited_insights = "" ∨ py_strip product_description = "" then
      some { s with final_product_description := some product_description }
    else
      some { s with final_product_description := some product_description,
                    bvp_result := some llm_out }
  else none

/-- The `goto_step7` button (Streamlit.py:646-648). -/
def goto_step7_step (s : Session) : Option Session :=
  if 6 ≤ s.current_step ∧ s.insight_analysis_result ≠ none ∧ s.bvp_result ≠ none then
    some { s with current_step := 7 }
  else none

/-- The `openai_funnel_analysis` handler (Streamlit.py:688-698): the Step 7
tab requires the Step 4 and Step 6 artifacts (Streamlit.py:657); the
selections come from the `funnel_stages` selectboxes; the handler reads
`channel_title` and `final_product_description` directly (an absent key or
an `IndexError` inside `analyze_marketing_funnel` aborts the run). -/
def run_funnel_step (s : Session) (start_stage end_stage llm_out : String) :
    Option Session :=
  if 7 ≤ s.current_step ∧ s.insight_analysis_result ≠ none ∧ s.bvp_result ≠ none then
    if start_stage ∈ funnel_stages ∧ end_stage ∈ funnel_stages then
      match s.channel_title, s.final_product_description, funnelParts start_stage end_stage with
      | some _, some _, some _ => some { s with funnel_analysis_result := some llm_out }
      | _, _, _ => some s
    else none
  else none

/-- The `goto_step8` button (Streamlit.py:701-703). -/
def goto_step8_step (s : Session) : Option Session :=
  if 7 ≤ s.current_step ∧ s.insight_analysis_result ≠ none ∧ s.bvp_result ≠ none
      ∧ s.funnel_analysis_result ≠ none then
    some { s with current_step := 8 }
  else none

/-- One operator action: a button press together with the results of the
external calls it triggers. -/
inductive AppAction where
  | lockChannel (input : String) (resolved : Option (String × String))
  | createGdoc (user_email : String) (result : Option String × Option String)
  | fetchVideos (vids : List Video)
  | runChannelAnalysis (llm_out : String)
  | gotoStep3
  | fetchComments (now : Int) (days : Nat) (fetch : String → Option (List RawComment))
  | runCommentAnalysis (llm_out : String)
  | gotoStep4
  | runInsight (llm_out : String)
  | gotoStep5
  | skipStep5
  | runCommercialization (edited_insights llm_out : String)
  | gotoStep6
  | runBvp (product_description edited_insights llm_out : String)
  | gotoStep7
  | runFunnel (start_stage end_stage llm_out : String)
  | gotoStep8

/-- The transition function of the pipeline state machine: dispatch each
action to its handler. -/
def stepApp (s : Session) : AppAction → Option Session
  | AppAction.lockChannel input resolved => some (lock_channel_step s input resolved)
  | AppAction.createGdoc user_email result => create_gdoc_step s user_email result
  | AppAction.fetchVideos vids => fetch_videos_step s vids
  | AppAction.runChannelAnalysis o => run_channel_analysis_step s o
  | AppAction.gotoStep3 => goto_step3_step s
  | AppAction.fetchComments now days fetch => fetch_comments_step s now days fetch
  | AppAction.runCommentAnalysis o => run_comment_analysis_step s o
  | AppAction.gotoStep4 => goto_step4_step s
  | AppAction.runInsight o => run_insight_step s o
  | AppAction.gotoStep5 => goto_step5_step s
  | AppAction.skipStep5 => skip_step5_step s
  | AppAction.runCommercialization e o => run_commercialization_step s e o
  | AppAction.gotoStep6 => goto_step6_step s
  | AppAction.runBvp p e o => run_bvp_step s p e o
  | AppAction.gotoStep7 => goto_step7_step s
  | AppAction.runFunnel a b o => run_funnel_step s a b o
  | AppAction.gotoStep8 => goto_step8_step s

/-- Run a sequence of actions from a session; `none` as soon as one action
is rejected. -/
def runTrace (s : Session) (as : List AppAction) : Option Session :=
  as.foldlM stepApp s

/-- The Step 8 tab gate (Streamlit.py:707): the summary/download content is
rendered iff `not (current_step < 6)`. -/
def step8Unlocked (s : Session) : Bool := decide (6 ≤ s.current_step)

/-! ## Concrete scenario data used by the closed theorems and witnesses -/

/-- A reference "now": 2026-10-12 00:00:00 UTC as epoch seconds. -/
def nowTs : Int := 1760227200

/-- A video published one day before `nowTs` (inside any window ≥ 1 day). -/
def demoVideo : Video :=
  { video_id := "vid1", title := "介紹影片", publishedAt := nowTs - 86400, viewCount := 1000 }

/-- A video published 2024-01-01 00:00:00 UTC — outside a 180-day window
ending at `nowTs`. -/
def oldVideo : Video :=
  { video_id := "vidOld", title := "舊影片", publishedAt := 1704067200, viewCount := 500 }

/-- A question-like fan comment. -/
def demoQuestionComment : RawComment :=
  { author := "粉絲A", publishedAt := nowTs - 3600, likeCount := 3, text := "這個怎麼操作？" }

/-- A comment far older than any window (its video, not it, is filtered). -/
def oldComment : RawComment :=
  { author := "粉絲B", publishedAt := 0, likeCount := 1, text := "謝謝分享" }

/-- A comment-thread API model serving one question comment per video. -/
def demoFetch : String → Option (List RawComment) := fun _ => some [demoQuestionComment]

/-- An operator run of Steps 1-4 followed by the "skip to Step 6" branch:
ends at `current_step = 6` with no Step 5/6/7 artifact. -/
def traceToStep6 : List AppAction :=
  [AppAction.lockChannel "UCdemo" (some ("UUdemo", "KOL")),
   AppAction.fetchVideos [demoVideo],
   AppAction.runChannelAnalysis "A2",
   AppAction.gotoStep3,
   AppAction.fetchComments nowTs 180 demoFetch,
   AppAction.runCommentAnalysis "A3",
   AppAction.gotoStep4,
   AppAction.runInsight "I",
   AppAction.skipStep5]

/-- The session reached by `traceToStep6`. -/
def sessionAtStep6 : Session := (runTrace initSession traceToStep6).getD initSession

/-- Continue `traceToStep6` through Steps 6 and 7: every later stage's
artifact is produced. -/
def traceFull : List AppAction :=
  traceToStep6 ++
  [AppAction.runBvp "P" "I" "B",
   AppAction.gotoStep7,
   AppAction.runFunnel "階段1：知悉、接觸" "階段4：首購、使用" "F"]

/-- The session reached by `traceFull`. -/
def sessionFull : Session := (runTrace initSession traceFull).getD initSession

/-- An operator run through all eight steps taking the Step 5 branch: all
six LLM-stage artifacts are produced. -/
def traceAll6 : List AppAction :=
  [AppAction.lockChannel "UCdemo" (some ("UUdemo", "KOL")),
   AppAction.fetchVideos [demoVideo],
   AppAction.runChannelAnalysis "A2",
   AppAction.gotoStep3,
   AppAction.fetchComments nowTs 180 demoFetch,
   AppAction.runCommentAnalysis "A3",
   AppAction.gotoStep4,
   AppAction.runInsight "I",
   AppAction.gotoStep5,
   AppAction.runCommercialization "I" "C5",
   AppAction.gotoStep6,
   AppAction.runBvp "C5" "I" "B",
   AppAction.gotoStep7,
   AppAction.runFunnel "階段1：知悉、接觸" "階段4：首購、使用" "F"]

/-- The session reached by `traceAll6`. -/
def sessionAll6 : Session := (runTrace initSession traceAll6).getD initSession

/-- A session at Step 3 whose collected comment set is empty (the column
list of its `comments_df` is empty, as `pd.DataFrame([])` has no columns):
the outcome of fetching comments when no video lies in the window. -/
def emptyCommentsSession : Session :=
  { current_step := 3,
    channel_id := some "UCdemo", uploads_id := some "UUdemo",
    channel_title := some "KOL", videos_df := some [oldVideo],
    comments_df := some (toDF (get_recent_comments [oldVideo] nowTs 180 demoFetch (some "KOL"))) }

/-- A Drive model where document creation succeeds and the subsequent
sharing call fails. -/
def failingDrive : DriveService :=
  { createResult := Except.ok (some "doc123", some "https://docs.google.com/doc123"),
    permissionResult := fun _ _ => Except.error "The user does not have permission" }

/-- A Drive model where both calls succeed. -/
def okDrive : DriveService :=
  { createResult := Except.ok (some "docOK", some "https://docs.google.com/docOK"),
    permissionResult := fun _ _ => Except.ok () }

/-- Two full pages of 50 video ids each: a catalog of 100 videos. -/
def pages60 : List (List Nat) := [List.range 50, (List.range 50).map (fun n => n + 50)]

/-- A single page holding a 3-video catalog. -/
def pagesSmall : List (List Nat) := [[0, 1, 2]]

/-- A detail-fetch model mapping every id to a fixed row. -/
def trivialDetail : Nat → Video :=
  fun _ => { video_id := "x", title := "", publishedAt := 0, viewCount := 0 }

/-! ## Helper lemmas -/

theorem leads_with_iff (n h : List Char) : leads_with n h = true ↔ n <+: h := by
  induction n generalizing h with
  | nil => simp [leads_with]
  | cons a as ih =>
    cases h with
    | nil => simp [leads_with, List.prefix_nil]
    | cons b bs =>
      simp [leads_with, List.cons_prefix_cons, ih, Bool.and_eq_true, decide_eq_true_iff]

theorem contains_sub_iff (n h : List Char) : contains_sub n h = true ↔ n <:+: h := by
  induction h with
  | nil => simp [contains_sub, List.isEmpty_iff, List.infix_nil]
  | cons b bs ih =>
    simp [contains_sub, Bool.or_eq_true, leads_with_iff, ih, List.infix_cons_iff]

theorem flatten_batches_eq_take (l : List α) (K : Nat) :
    ((List.range K).map (fun k => (l.drop (50 * k)).take 50)).flatten = l.take (50 * K) := by
  induction K with
  | zero => simp
  | succ K ih =>
    rw [List.range_succ, List.map_append, List.flatten_append, ih]
    simp only [List.map_cons, List.map_nil, List.flatten_cons, List.flatten_nil,
      List.append_nil]
    rw [Nat.mul_succ, List.take_add]

theorem collect_video_ids_go_all (max_videos : Nat) (pages : List (List α)) (acc : List α)
    (h : acc.length + pages.flatten.length < max_videos) :
    collect_video_ids_go max_videos pages acc = acc ++ pages.flatten := by
  induction pages generalizing acc with
  | nil => simp [collect_video_ids_go]
  | cons p rest ih =>
    cases rest with
    | nil => simp [collect_video_ids_go]
    | cons q qs =>
      simp only [collect_video_ids_go]
      have hflat : ((p :: q :: qs).flatten).length
          = p.length + ((q :: qs).flatten).length := by
        simp [List.flatten_cons]
      have hlen : ¬ (max_videos ≤ (acc ++ p).length) := by
        rw [List.length_append]
        omega
      rw [if_neg hlen, ih]
      · simp [List.flatten_cons, List.append_assoc]
      · rw [List.length_append]
        omega

theorem le_fifty_mul_ceil (m : Nat) : m ≤ 50 * ((m + 49) / 50) := by
  have h1 := Nat.div_add_mod (m + 49) 50
  have h2 : (m + 49) % 50 < 50 := Nat.mod_lt _ (by omega)
  omega

theorem fetch_video_details_length (video_ids : List α) (max_videos : Nat)
    (detail : α → Video) :
    (fetch_video_details video_ids max_videos detail).length =
      min (50 * ((min video_ids.length max_videos + 49) / 50)) video_ids.length := by
  unfold fetch_video_details
  rw [List.length_map, flatten_batches_eq_take, List.length_take]

/-! ## Claim theorems -/

/-- C7: the question-comment classifier `isQuestionLike` returns `true` for
a text iff the text contains at least one of the eleven fixed markers as a
substring; it is total and deterministic (a Lean function); of the two
comments 這個怎麼操作？ and 讚, exactly the first is retained as
question-like. -/
theorem isQuestionLike_spec :
    (∀ t : String, isQuestionLike t = true ↔ ∃ m ∈ question_patterns, m.data <:+: t.data)
  ∧ isQuestionLike "這個怎麼操作？" = true
  ∧ isQuestionLike "讚" = false := by
  refine ⟨?_, by decide, by decide⟩
  intro t
  simp [isQuestionLike, List.any_eq_true, contains_sub_iff]

/-- C8: every collected comment comes from a video of the catalog whose
publish timestamp lies within `now - days`; if no video lies in the window
the collected set is empty (out-of-window videos contribute no comments);
and a comment of an in-window video is collected regardless of the
comment's own publish date (which is unconstrained). -/
theorem recent_comments_window_on_video_date (videos : List Video) (now : Int)
    (days : Nat) (fetch : String → Option (List RawComment)) (cn : Option String) :
    (∀ c ∈ get_recent_comments videos now days fetch cn,
        ∃ v ∈ videos, v.video_id = c.video_id ∧ now - (days : Int) * 86400 ≤ v.publishedAt)
  ∧ ((∀ v ∈ videos, v.publishedAt < now - (days : Int) * 86400) →
        get_recent_comments videos now days fetch cn = [])
  ∧ (∀ v ∈ videos, now - (days : Int) * 86400 ≤ v.publishedAt →
      ∀ cs, fetch v.video_id = some cs → ∀ rc ∈ cs, excluded_author cn rc = false →
        ({ video_id := v.video_id, author := rc.author, published_at := rc.publishedAt,
           like_count := rc.likeCount, text := rc.text } : CommentRow)
          ∈ get_recent_comments videos now days fetch cn) := by
  refine ⟨?_, ?_, ?_⟩
  · intro c hc
    unfold get_recent_comments at hc
    rw [List.mem_flatMap] at hc
    obtain ⟨v, hv, hcv⟩ := hc
    rw [List.mem_filter] at hv
    have heq : v.video_id = c.video_id := by
      cases hfetch : fetch v.video_id with
      | none => rw [hfetch] at hcv; simp [comments_for_video] at hcv
      | some cs =>
        rw [hfetch] at hcv
        simp only [comments_for_video] at hcv
        unfold video_comment_rows at hcv
        rw [List.mem_filterMap] at hcv
        obtain ⟨rc, _, hrc⟩ := hcv
        split at hrc
        · exact Option.noConfusion hrc
        · cases hrc; rfl
    exact ⟨v, hv.1, heq, of_decide_eq_true hv.2⟩
  · intro hall
    unfold get_recent_comments
    have hfil : videos.filter
        (fun v => decide (now - (days : Int) * 86400 ≤ v.publishedAt)) = [] := by
      rw [List.filter_eq_nil_iff]
      intro v hv
      simpa using not_le.mpr (hall v hv)
    rw [hfil]
    rfl
  · intro v hv hwin cs hfetch rc hrcmem hexcl
    unfold get_recent_comments
    rw [List.mem_flatMap]
    refine ⟨v, List.mem_filter.mpr ⟨hv, decide_eq_true hwin⟩, ?_⟩
    rw [hfetch]
    simp only [comments_for_video]
    unfold video_comment_rows
    rw [List.mem_filterMap]
    exact ⟨rc, hrcmem, by rw [hexcl]; simp⟩

/-- C8 witness: a comment with publish timestamp 0 (far outside the window)
is collected because its parent video lies inside the 180-day window. -/
theorem recent_comments_window_witness :
    ({ video_id := demoVideo.video_id, author := oldComment.author,
       published_at := oldComment.publishedAt, like_count := oldComment.likeCount,
       text := oldComment.text } : CommentRow)
      ∈ get_recent_comments [demoVideo] nowTs 180 (fun _ => some [oldComment]) (some "KOL") :=
  (recent_comments_window_on_video_date [demoVideo] nowTs 180
      (fun _ => some [oldComment]) (some "KOL")).2.2
    demoVideo (by simp) (by decide) [oldComment] rfl oldComment (by simp) (by decide)

/-- C4 counterexample: with a catalog of 100 videos served in two pages of
50 and a cap of 60, `get_channel_videos` returns 100 videos — more than the
cap — because the final detail slice `video_ids[50:100]` overshoots the cap
and is not truncated. -/
theorem get_channel_videos_cap_counterexample :
    (get_channel_videos pages60 trivialDetail 60).length = 100
  ∧ ¬ ((get_channel_videos pages60 trivialDetail 60).length ≤ 60) := by
  refine ⟨by decide, by decide⟩

/-- C4 (amended): for every cap `c ≥ 1`, `get_channel_videos` returns at
most `50 * ⌈c/50⌉` videos (so at most `c` whenever `c` is a multiple of 50,
as in the app's only call with the default cap 1000, but up to 49 more
otherwise), and when the catalog holds fewer than `c` videos it returns
exactly the full catalog size. -/
theorem get_channel_videos_cap_amended (pages : List (List α)) (detail : α → Video)
    (c : Nat) (hc : 1 ≤ c) :
    (get_channel_videos pages detail c).length ≤ 50 * ((c + 49) / 50)
  ∧ (pages.flatten.length < c →
      (get_channel_videos pages detail c).length = pages.flatten.length) := by
  constructor
  · unfold get_channel_videos
    rw [fetch_video_details_length]
    have hminc : min (collect_video_ids_go c pages []).length c ≤ c := min_le_right _ _
    have hdiv : (min (collect_video_ids_go c pages []).length c + 49) / 50 ≤ (c + 49) / 50 :=
      Nat.div_le_div_right (by omega)
    omega
  · intro hlt
    unfold get_channel_videos
    rw [fetch_video_details_length]
    rw [collect_video_ids_go_all c pages [] (by simpa using hlt)]
    rw [List.nil_append]
    have hle := le_fifty_mul_ceil pages.flatten.length
    have hm : min pages.flatten.length c = pages.flatten.length :=
      min_eq_left (le_of_lt hlt)
    rw [hm]
    omega

/-- C4 witness: the bound instantiated at the counterexample input, and the
exact-catalog clause at a 3-video catalog under a cap of 60. -/
theorem get_channel_videos_cap_amended_witness :
    (get_channel_videos pages60 trivialDetail 60).length ≤ 50 * ((60 + 49) / 50)
  ∧ (get_channel_videos pagesSmall trivialDetail 60).length = pagesSmall.flatten.length :=
  ⟨(get_channel_videos_cap_amended pages60 trivialDetail 60 (by decide)).1,
   (get_channel_videos_cap_amended pagesSmall trivialDetail 60 (by decide)).2 (by decide)⟩

/-- C9: a successful channel lock (nonempty input, resolved to a nonempty
uploads id) replaces the whole session with a fresh one: every collected
data set and every artifact key is gone, and only the new channel's
identity plus `current_step = 2` are present. -/
theorem lock_channel_total_reset (s : Session) (input u t : String)
    (h1 : input ≠ "") (h2 : u ≠ "") :
    lock_channel_step s input (some (u, t)) =
      { channel_id := some input, uploads_id := some u, channel_title := some t,
        current_step := 2, gdoc_url := none, videos_df := none, comments_df := none,
        channel_analysis_result := none, comment_analysis_result := none,
        insight_analysis_result := none, commercialization_result := none,
        bvp_result := none, funnel_analysis_result := none,
        final_product_description := none } := by
  simp [lock_channel_step, h1, h2]

/-- C9 witness: locking a new channel from a session holding every stage's
artifact yields the fresh session. -/
theorem lock_channel_total_reset_witness :
    lock_channel_step sessionFull "UCnew" (some ("UUnew", "新頻道")) =
      { channel_id := some "UCnew", uploads_id := some "UUnew",
        channel_title := some "新頻道", current_step := 2, gdoc_url := none,
        videos_df := none, comments_df := none, channel_analysis_result := none,
        comment_analysis_result := none, insight_analysis_result := none,
        commercialization_result := none, bvp_result := none,
        funnel_analysis_result := none, final_product_description := none } :=
  lock_channel_total_reset sessionFull "UCnew" "UUnew" "新頻道" (by decide) (by decide)

/-- C5 counterexample: with a Drive model where the document is created
(id and url returned) and the subsequent sharing call fails,
`create_blank_doc_in_folder` returns `(None, error)` — the claim that the
outcome is surfaced as a partial success with the document reference
returned is false: the reference is dropped. -/
theorem share_failure_collapsed_counterexample :
    create_blank_doc_in_folder failingDrive "報告" "folder1" "user@example.com" =
      (none, some "建立 Google Docs 失敗: The user does not have permission")
  ∧ (create_blank_doc_in_folder failingDrive "報告" "folder1" "user@example.com").1 = none :=
  ⟨rfl, rfl⟩

/-- C5 (amended): when document creation succeeds but the sharing call then
fails, the single function-wide `except` catches the error and the call
returns `(None, "建立 Google Docs 失敗: ...")` — a total failure with no
document reference, indistinguishable from a failed creation. -/
theorem share_failure_reported_as_total (svc : DriveService)
    (title folder_id user_email doc_id doc_url e : String)
    (h1 : svc.createResult = Except.ok (some doc_id, some doc_url))
    (h2 : user_email ≠ "")
    (h3 : svc.permissionResult doc_id user_email = Except.error e) :
    create_blank_doc_in_folder svc title folder_id user_email =
      (none, some ("建立 Google Docs 失敗: " ++ e)) := by
  simp [create_blank_doc_in_folder, h1, h2, h3]

/-- C5 witness: the amended statement at the concrete failing Drive model. -/
theorem share_failure_reported_as_total_witness :
    create_blank_doc_in_folder failingDrive "月報" "folderX" "pm@example.com" =
      (none, some ("建立 Google Docs 失敗: " ++ "The user does not have permission")) :=
  share_failure_reported_as_total failingDrive "月報" "folderX" "pm@example.com"
    "doc123" "https://docs.google.com/doc123" "The user does not have permission"
    rfl (by decide) rfl

/-- C2 counterexample: after a run in which all six LLM-stage artifacts were
produced, the exported document is blank — its text is empty and contains
none of the six stage labels (let alone a label followed by its artifact
text): the source never inserts any text into the created document. -/
theorem export_doc_contains_no_labels_counterexample :
    runTrace initSession traceAll6 = some sessionAll6
  ∧ sessionAll6.channel_analysis_result = some "A2"
  ∧ sessionAll6.comment_analysis_result = some "A3"
  ∧ sessionAll6.insight_analysis_result = some "I"
  ∧ sessionAll6.commercialization_result = some "C5"
  ∧ sessionAll6.bvp_result = some "B"
  ∧ sessionAll6.funnel_analysis_result = some "F"
  ∧ (createdDoc (doc_title_for "KOL" "2026-10-12")).text = ""
  ∧ section_labels.all
      (fun l => !(contains_sub l.data (createdDoc (doc_title_for "KOL" "2026-10-12")).text.data))
      = true :=
  ⟨rfl, rfl, rfl, rfl, rfl, rfl, rfl, rfl, rfl⟩

/-- C2 (amended): the export operation creates a *blank* document titled
`<channel title>_AI策略分析報告_<date>`, shares it, and returns its url; no
header/artifact text is written into it — the artifacts reach the document
only by manual copy-paste. -/
theorem export_creates_blank_doc (svc : DriveService)
    (channel_title date folder_id user_email doc_id doc_url : String)
    (h1 : svc.createResult = Except.ok (some doc_id, some doc_url))
    (h2 : user_email ≠ "")
    (h3 : svc.permissionResult doc_id user_email = Except.ok ()) :
    create_blank_doc_in_folder svc (doc_title_for channel_title date) folder_id user_email
      = (some doc_url, none)
  ∧ (createdDoc (doc_title_for channel_title date)).text = ""
  ∧ (createdDoc (doc_title_for channel_title date)).title =
      channel_title ++ "_AI策略分析報告_" ++ date := by
  refine ⟨?_, rfl, rfl⟩
  simp [create_blank_doc_in_folder, h1, h2, h3]

/-- C2 witness: the amended statement at a concrete all-success Drive
model. -/
theorem export_creates_blank_doc_witness :
    create_blank_doc_in_folder okDrive (doc_title_for "KOL" "2026-10-12") "folder1"
      "user@example.com" = (some "https://docs.google.com/docOK", none)
  ∧ (createdDoc (doc_title_for "KOL" "2026-10-12")).text = "" :=
  ⟨(export_creates_blank_doc okDrive "KOL" "2026-10-12" "folder1" "user@example.com"
      "docOK" "https://docs.google.com/docOK" rfl (by decide) rfl).1,
   (export_creates_blank_doc okDrive "KOL" "2026-10-12" "folder1" "user@example.com"
      "docOK" "https://docs.google.com/docOK" rfl (by decide) rfl).2.1⟩

/-- C10: every choice of start and end funnel stage from the fixed 7-value
enumeration — equal and reversed pairs included — is accepted: the stage
description after the full-width colon and the stage digit at string index
2 are both extracted successfully, the prompt is built, and the analysis
completes; no ordering constraint between start and end is checked
anywhere. -/
theorem funnel_accepts_all_stage_pairs :
    (∀ s ∈ funnel_stages, (stage_desc s).isSome = true ∧ (stage_digit s).isSome = true)
  ∧ (∀ s ∈ funnel_stages, ∀ e ∈ funnel_stages,
      ∀ kol product insight bvp : String, ∀ llm : String → String,
        (analyze_marketing_funnel kol product insight bvp s e llm).isSome = true) := by
  constructor
  · decide
  · intro s hs e he kol product insight bvp llm
    have hall : funnel_stages.all
        (fun a => funnel_stages.all (fun b => (funnelParts a b).isSome)) = true := by
      decide
    have h1 := List.all_eq_true.mp hall s hs
    have h2 := List.all_eq_true.mp h1 e he
    unfold analyze_marketing_funnel
    cases hp : funnelParts s e with
    | none => rw [hp] at h2; simp at h2
    | some p => simp

/-- C10 witness: a *reversed* pair (start = stage 4, end = stage 1) is
accepted and produces an artifact. -/
theorem funnel_accepts_reversed_pair_witness :
    (analyze_marketing_funnel "KOL" "產品" "洞察" "主張"
      "階段4：首購、使用" "階段1：知悉、接觸" id).isSome = true :=
  funnel_accepts_all_stage_pairs.2 "階段4：首購、使用" (by decide)
    "階段1：知悉、接觸" (by decide) "KOL" "產品" "洞察" "主張" id

/-- C1: the Step 8 (Complete) gate admits a session that has no
funnel-analysis artifact.  An operator run through Steps 1-4 followed by
the "skip to Step 6" branch reaches `current_step = 6` with neither the
Step 6 nor the Step 7 artifact, yet the `tabs[7]` gate
(`current_step < 6`, Streamlit.py:707) renders the Step 8 content —
contradicting both the claim and the tab's own rejection message, which
demands that Step 7 be completed first. -/
theorem step8_gate_admits_without_funnel :
    runTrace initSession traceToStep6 = some sessionAtStep6
  ∧ sessionAtStep6.current_step = 6
  ∧ sessionAtStep6.funnel_analysis_result = none
  ∧ sessionAtStep6.bvp_result = none
  ∧ step8Unlocked sessionAtStep6 = true :=
  ⟨rfl, rfl, rfl, rfl, rfl⟩

/-- C6: when the recency window contains no videos, the collected comment
set is the empty DataFrame `pd.DataFrame([])`, which has no `'text'`
column; the pain-point handler then raises `KeyError` on
`comments_df['text']` *before* reaching its `questions_df.empty`
placeholder branch, so no artifact (placeholder or otherwise) is produced
and the Step 4 unlock stays rejected — the pipeline does not advance. -/
theorem empty_comment_window_keyerror :
    get_recent_comments [oldVideo] nowTs 180 demoFetch (some "KOL") = []
  ∧ (toDF (get_recent_comments [oldVideo] nowTs 180 demoFetch (some "KOL"))).cols = []
  ∧ commentAnalysisStep (toDF (get_recent_comments [oldVideo] nowTs 180 demoFetch (some "KOL")))
      "分析結果" = Except.error "KeyError: 'text'"
  ∧ run_comment_analysis_step emptyCommentsSession "分析結果" = some emptyCommentsSession
  ∧ emptyCommentsSession.comment_analysis_result = none
  ∧ goto_step4_step emptyCommentsSession = none :=
  ⟨rfl, rfl, rfl, rfl, rfl, rfl⟩

/-- C3 counterexample: from a full session (Steps 1-7 artifacts present),
re-running the Step 2 channel-audience analysis succeeds and leaves every
downstream artifact (Step 3 pain points, Step 4 insight, Step 6 BVP,
Step 7 funnel) still present — nothing is discarded, refuting the claim
that regeneration discards all downstream artifacts. -/
theorem rerun_earlier_stage_keeps_downstream_counterexample :
    runTrace initSession traceFull = some sessionFull
  ∧ sessionFull.comment_analysis_result = some "A3"
  ∧ sessionFull.insight_analysis_result = some "I"
  ∧ sessionFull.bvp_result = some "B"
  ∧ sessionFull.funnel_analysis_result = some "F"
  ∧ (run_channel_analysis_step sessionFull "NEW").map Session.channel_analysis_result
      = some (some "NEW")
  ∧ (run_channel_analysis_step sessionFull "NEW").map Session.comment_analysis_result
      = some (some "A3")
  ∧ (run_channel_analysis_step sessionFull "NEW").map Session.insight_analysis_result
      = some (some "I")
  ∧ (run_channel_analysis_step sessionFull "NEW").map Session.bvp_result
      = some (some "B")
  ∧ (run_channel_analysis_step sessionFull "NEW").map Session.funnel_analysis_result
      = some (some "F") :=
  ⟨rfl, rfl, rfl, rfl, rfl, rfl, rfl, rfl, rfl, rfl⟩

/-- C3 (amended): re-running an earlier stage's analysis handler (Step 2
channel analysis, Step 3 pain-point analysis, or Step 4 insight analysis)
overwrites only that stage's own artifact; every downstream artifact
already present in the session is retained unchanged, not discarded. -/
theorem rerun_earlier_stage_retains_downstream (s s1 s2 s3 : Session) (o1 o2 o3 : String)
    (h1 : run_channel_analysis_step s o1 = some s1)
    (h2 : run_comment_analysis_step s o2 = some s2)
    (h3 : run_insight_step s o3 = some s3) :
    (s1.comment_analysis_result = s.comment_analysis_result
      ∧ s1.insight_analysis_result = s.insight_analysis_result
      ∧ s1.commercialization_result = s.commercialization_result
      ∧ s1.bvp_result = s.bvp_result
      ∧ s1.funnel_analysis_result = s.funnel_analysis_result)
  ∧ (s2.insight_analysis_result = s.insight_analysis_result
      ∧ s2.commercialization_result = s.commercialization_result
      ∧ s2.bvp_result = s.bvp_result
      ∧ s2.funnel_analysis_result = s.funnel_analysis_result)
  ∧ (s3.commercialization_result = s.commercialization_result
      ∧ s3.bvp_result = s.bvp_result
      ∧ s3.funnel_analysis_result = s.funnel_analysis_result) := by
  refine ⟨?_, ?_, ?_⟩
  · unfold run_channel_analysis_step at h1
    split at h1
    · cases h1
      exact ⟨rfl, rfl, rfl, rfl, rfl⟩
    · exact Option.noConfusion h1
  · unfold run_comment_analysis_step at h2
    split at h2
    · split at h2
      · exact Option.noConfusion h2
      · split at h2
        · cases h2
          exact ⟨rfl, rfl, rfl, rfl⟩
        · cases h2
          exact ⟨rfl, rfl, rfl, rfl⟩
    · exact Option.noConfusion h2
  · unfold run_insight_step at h3
    split at h3
    · cases h3
      exact ⟨rfl, rfl, rfl⟩
    · exact Option.noConfusion h3

/-- C3 witness: the amended retention statement applied at the full
session. -/
theorem rerun_earlier_stage_retains_downstream_witness :
    ((run_channel_analysis_step sessionFull "X1").getD initSession).funnel_analysis_result
      = sessionFull.funnel_analysis_result
  ∧ ((run_insight_step sessionFull "X3").getD initSession).bvp_result
      = sessionFull.bvp_result := by
  have h := rerun_earlier_stage_retains_downstream sessionFull
    ((run_channel_analysis_step sessionFull "X1").getD initSession)
    ((run_comment_analysis_step sessionFull "X2").getD initSession)
    ((run_insight_step sessionFull "X3").getD initSession)
    "X1" "X2" "X3" rfl rfl rfl
  exact ⟨h.1.2.2.2.2, h.2.2.2.1⟩
